import Mathlib

/-!
Shallow embedding of the OAuth/PKCE token-lifecycle core of the
frappe-oauth-template repository (src/lib/oauth.ts and src/lib/storage.ts),
together with theorems settling the frozen claims about it.

Modelling conventions:
- JavaScript strings are Lean `String`; absent values (`null`/`undefined`)
  are `Option`.
- JavaScript truthiness on optional strings (`if (x)`) is `jsTruthy`:
  absent and the empty string are falsy.
- Timestamps (`Date.now()`, stored expiry) are `Int` milliseconds, so that
  `expiry - 60000` subtracts without truncation, exactly as JS numbers do.
- Byte arrays (`Uint8Array`, SHA-256 digests, UTF-8 encodings) are
  `List Nat` with each byte below 256.
- The browser storage backends (localStorage + sessionStorage) are a record
  of optional values, one field per storage key used by the code, plus a
  `windowDefined` flag embedding the `typeof window === "undefined"` guard
  that the code uses to detect an unavailable backend.
- Randomness (`crypto.getRandomValues`) is passed in as an explicit byte
  list argument; network responses (`fetch`) are passed in as explicit
  response values, so every function is a pure function of its inputs.
-/

namespace FrappeOAuth

/-- JavaScript truthiness of an optional string: `undefined`/`null` and the
empty string are falsy, every other string is truthy. -/
def jsTruthy : Option String → Bool
  | none => false
  | some s => s != ""

/-- The JavaScript `a || d` fallback chain on an optional string `a`:
yields `a` when it is present and non-empty, otherwise the default `d`. -/
def jsOr (o : Option String) (d : String) : String :=
  match o with
  | none => d
  | some s => if s = "" then d else s

/-! ## Base64 (`btoa`) and base64url, from oauth.ts `base64URLEncode` -/

/-- The standard base64 alphabet used by the browser `btoa` builtin. -/
def b64StdChars : List Char :=
  "ABCDEFGHIJKLMNOPQRSTUVWXYZabcdefghijklmnopqrstuvwxyz0123456789+/".data

/-- The base64url alphabet of RFC 4648 section 5 (`-` and `_` instead of
`+` and `/`). -/
def b64UrlChars : List Char :=
  "ABCDEFGHIJKLMNOPQRSTUVWXYZabcdefghijklmnopqrstuvwxyz0123456789-_".data

/-- Standard-alphabet character for a 6-bit value. -/
def b64Char (n : Nat) : Char := b64StdChars.getD n 'A'

/-- Url-alphabet character for a 6-bit value. -/
def b64UrlChar (n : Nat) : Char := b64UrlChars.getD n 'A'

/-- The two `.replace` calls of `base64URLEncode`: `+` becomes `-` and `/`
becomes `_`; every other character is kept. -/
def urlMapChar (c : Char) : Char :=
  if c = '+' then '-' else if c = '/' then '_' else c

/-- The browser `btoa` builtin on a byte list: standard base64 with `=`
padding, processing the input in chunks of three bytes. -/
def btoaChunks : List Nat → List Char
  | [] => []
  | [a] => [b64Char (a / 4), b64Char (a % 4 * 16), '=', '=']
  | [a, b] => [b64Char (a / 4), b64Char (a % 4 * 16 + b / 16), b64Char (b % 16 * 4), '=']
  | a :: b :: c :: rest =>
      b64Char (a / 4) :: b64Char (a % 4 * 16 + b / 16) ::
      b64Char (b % 16 * 4 + c / 64) :: b64Char (c % 64) :: btoaChunks rest

/-- `btoa` as a string-producing function. -/
def btoa (bytes : List Nat) : String := String.mk (btoaChunks bytes)

/-- The `.replace(/=+$/, "")` regex of `base64URLEncode`: removes every
trailing `=` character. -/
def dropTrailingEq (cs : List Char) : List Char :=
  (cs.reverse.dropWhile (· == '=')).reverse

/-- `base64URLEncode` from oauth.ts: `btoa`, then the character
replacements `+` to `-` and `/` to `_`, then stripping trailing `=`. -/
def base64URLEncode (bytes : List Nat) : String :=
  String.mk (dropTrailingEq ((btoaChunks bytes).map urlMapChar))

/-- Modelled from the spec wording: direct base64url (RFC 4648 section 5)
encoding with no padding characters, used as the specification-side
definition that `base64URLEncode` is compared with. -/
def base64urlNoPad : List Nat → List Char
  | [] => []
  | [a] => [b64UrlChar (a / 4), b64UrlChar (a % 4 * 16)]
  | [a, b] => [b64UrlChar (a / 4), b64UrlChar (a % 4 * 16 + b / 16), b64UrlChar (b % 16 * 4)]
  | a :: b :: c :: rest =>
      b64UrlChar (a / 4) :: b64UrlChar (a % 4 * 16 + b / 16) ::
      b64UrlChar (b % 16 * 4 + c / 64) :: b64UrlChar (c % 64) :: base64urlNoPad rest

/-! ## SHA-256, the embedding of `crypto.subtle.digest("SHA-256", _)` -/

/-- Addition modulo 2^32. -/
def add32 (a b : Nat) : Nat := (a + b) % 4294967296

/-- Right rotation of a 32-bit word by `n` bits. -/
def rotr (n x : Nat) : Nat := x / 2 ^ n + x % 2 ^ n * 2 ^ (32 - n)

/-- Logical right shift by `n` bits. -/
def shr (n x : Nat) : Nat := x / 2 ^ n

/-- Bitwise complement on 32 bits (xor with 2^32 - 1). -/
def not32 (x : Nat) : Nat := Nat.xor x 4294967295

/-- SHA-256 message-schedule sigma-0. -/
def ssig0 (x : Nat) : Nat := Nat.xor (Nat.xor (rotr 7 x) (rotr 18 x)) (shr 3 x)

/-- SHA-256 message-schedule sigma-1. -/
def ssig1 (x : Nat) : Nat := Nat.xor (Nat.xor (rotr 17 x) (rotr 19 x)) (shr 10 x)

/-- SHA-256 compression Sigma-0. -/
def bsig0 (x : Nat) : Nat := Nat.xor (Nat.xor (rotr 2 x) (rotr 13 x)) (rotr 22 x)

/-- SHA-256 compression Sigma-1. -/
def bsig1 (x : Nat) : Nat := Nat.xor (Nat.xor (rotr 6 x) (rotr 11 x)) (rotr 25 x)

/-- SHA-256 choose function. -/
def chFn (x y z : Nat) : Nat := Nat.xor (Nat.land x y) (Nat.land (not32 x) z)

/-- SHA-256 majority function. -/
def majFn (x y z : Nat) : Nat :=
  Nat.xor (Nat.xor (Nat.land x y) (Nat.land x z)) (Nat.land y z)

/-- SHA-256 round constants. -/
def sha256K : Array Nat := #[
  1116352408, 1899447441, 3049323471, 3921009573, 961987163,
  1508970993, 2453635748, 2870763221, 3624381080, 310598401,
  607225278, 1426881987, 1925078388, 2162078206, 2614888103,
  3248222580, 3835390401, 4022224774, 264347078, 604807628,
  770255983, 1249150122, 1555081692, 1996064986, 2554220882,
  2821834349, 2952996808, 3210313671, 3336571891, 3584528711,
  113926993, 338241895, 666307205, 773529912, 1294757372,
  1396182291, 1695183700, 1986661051, 2177026350, 2456956037,
  2730485921, 2820302411, 3259730800, 3345764771, 3516065817,
  3600352804, 4094571909, 275423344, 430227734, 506948616,
  659060556, 883997877, 958139571, 1322822218, 1537002063,
  1747873779, 1955562222, 2024104815, 2227730452, 2361852424,
  2428436474, 2756734187, 3204031479, 3329325298]

/-- SHA-256 initial hash state. -/
def sha256H0 : Array Nat := #[
  1779033703, 3144134277, 1013904242, 2773480762, 1359893119,
  2600822924, 528734635, 1541459225]

/-- Big-endian 8-byte encoding of the bit length for the padding block. -/
def lenBytes8 (l : Nat) : List Nat :=
  [l / 2 ^ 56 % 256, l / 2 ^ 48 % 256, l / 2 ^ 40 % 256, l / 2 ^ 32 % 256,
   l / 2 ^ 24 % 256, l / 2 ^ 16 % 256, l / 2 ^ 8 % 256, l % 256]

/-- SHA-256 padding: append 0x80, zero bytes to 56 mod 64, then the
message bit length as 8 big-endian bytes. -/
def sha256Pad (msg : List Nat) : List Nat :=
  let z := (64 - (msg.length + 9) % 64) % 64
  msg ++ 0x80 :: List.replicate z 0 ++ lenBytes8 (msg.length * 8)

/-- Big-endian 32-bit words from a byte list. -/
def toWords : List Nat → List Nat
  | b0 :: b1 :: b2 :: b3 :: rest =>
      (b0 * 16777216 + b1 * 65536 + b2 * 256 + b3) :: toWords rest
  | _ => []

/-- Split a byte list into 64-byte blocks. -/
def toBlocks (l : List Nat) : List (List Nat) :=
  if h : l = [] then []
  else
    have : (l.drop 64).length < l.length := by
      cases l with
      | nil => exact absurd rfl h
      | cons x xs => simp [List.length_drop]; omega
    l.take 64 :: toBlocks (l.drop 64)
termination_by l.length

/-- Extend the 16 words of a block to the 64-word message schedule. -/
def scheduleWords (ws : List Nat) : Array Nat := Id.run do
  let mut w : Array Nat := ws.toArray
  for i in [16:64] do
    w := w.push (add32 (add32 (w.getD (i - 16) 0) (ssig0 (w.getD (i - 15) 0)))
                       (add32 (w.getD (i - 7) 0) (ssig1 (w.getD (i - 2) 0))))
  return w

/-- One SHA-256 compression step over a 64-byte block. -/
def sha256Compress (h : Array Nat) (block : List Nat) : Array Nat := Id.run do
  let w := scheduleWords (toWords block)
  let mut a := h.getD 0 0
  let mut b := h.getD 1 0
  let mut c := h.getD 2 0
  let mut d := h.getD 3 0
  let mut e := h.getD 4 0
  let mut f := h.getD 5 0
  let mut g := h.getD 6 0
  let mut hh := h.getD 7 0
  for i in [0:64] do
    let t1 := add32 (add32 (add32 hh (bsig1 e)) (add32 (chFn e f g) (sha256K.getD i 0)))
                    (w.getD i 0)
    let t2 := add32 (bsig0 a) (majFn a b c)
    hh := g
    g := f
    f := e
    e := add32 d t1
    d := c
    c := b
    b := a
    a := add32 t1 t2
  return #[add32 (h.getD 0 0) a, add32 (h.getD 1 0) b, add32 (h.getD 2 0) c,
           add32 (h.getD 3 0) d, add32 (h.getD 4 0) e, add32 (h.getD 5 0) f,
           add32 (h.getD 6 0) g, add32 (h.getD 7 0) hh]

/-- SHA-256 digest of a byte list, as 32 bytes. -/
def sha256 (msg : List Nat) : List Nat :=
  let hf := (toBlocks (sha256Pad msg)).foldl sha256Compress sha256H0
  (hf.toList.map fun w => [w / 16777216 % 256, w / 65536 % 256, w / 256 % 256, w % 256]).flatten

/-- UTF-8 bytes of a string, the embedding of `new TextEncoder().encode`. -/
def utf8Bytes (s : String) : List Nat := s.toUTF8.toList.map UInt8.toNat

/-- Byte codes of a string as taken by `btoa` (each char code, assumed
below 256 as in every call site of the source). -/
def strBytes (s : String) : List Nat := s.data.map Char.toNat

/-! ## storage.ts: the TokenStorage class

State of the two browser storage backends. Fields `accessToken` through
`userInfo` are the localStorage keys `frappe_access_token`,
`frappe_refresh_token`, `frappe_id_token`, `frappe_token_expiry`,
`frappe_user_info`; `codeVerifier` and `state` are the sessionStorage keys
`frappe_code_verifier` and `frappe_state`. `windowDefined` is false
exactly when `typeof window === "undefined"`, the guard every method uses
to detect an unavailable storage backend. The stored expiry is kept as the
`Int` that `expiryTime.toString()` writes and `parseInt` reads back. -/
structure StorageState where
  windowDefined : Bool
  accessToken : Option String
  refreshToken : Option String
  idToken : Option String
  tokenExpiry : Option Int
  userInfo : Option String
  codeVerifier : Option String
  state : Option String
deriving Repr, DecidableEq

/-- `TokenStorage.setTokens`: stores the access token, stores refresh and
id token only when truthy, and stores the absolute expiry
`Date.now() + expiresIn * 1000`. No-op when `window` is undefined. -/
def setTokens (st : StorageState) (now : Int) (accessToken : String)
    (refreshToken idToken : Option String) (expiresIn : Int) : StorageState :=
  if st.windowDefined = false then st
  else
    { st with
      accessToken := some accessToken
      refreshToken := if jsTruthy refreshToken then refreshToken else st.refreshToken
      idToken := if jsTruthy idToken then idToken else st.idToken
      tokenExpiry := some (now + expiresIn * 1000) }

/-- `TokenStorage.getAccessToken`. -/
def getAccessToken (st : StorageState) : Option String :=
  if st.windowDefined = false then none else st.accessToken

/-- `TokenStorage.getRefreshToken`. -/
def getRefreshToken (st : StorageState) : Option String :=
  if st.windowDefined = false then none else st.refreshToken

/-- `TokenStorage.getIdToken`. -/
def getIdToken (st : StorageState) : Option String :=
  if st.windowDefined = false then none else st.idToken

/-- `TokenStorage.isTokenExpired`: true when `window` is undefined or no
expiry is stored; otherwise `Date.now() >= parseInt(expiryTime) - 60000`. -/
def isTokenExpired (st : StorageState) (now : Int) : Bool :=
  if st.windowDefined = false then true
  else
    match st.tokenExpiry with
    | none => true
    | some e => decide (now ≥ e - 60000)

/-- `TokenStorage.setCodeVerifier` (sessionStorage). -/
def setCodeVerifier (st : StorageState) (codeVerifier : String) : StorageState :=
  if st.windowDefined = false then st else { st with codeVerifier := some codeVerifier }

/-- `TokenStorage.getAndRemoveCodeVerifier`: reads the stored verifier and
removes the key, returning the value read and the updated storage. -/
def getAndRemoveCodeVerifier (st : StorageState) : Option String × StorageState :=
  if st.windowDefined = false then (none, st)
  else (st.codeVerifier, { st with codeVerifier := none })

/-- `TokenStorage.setState` (sessionStorage). -/
def setState (st : StorageState) (s : String) : StorageState :=
  if st.windowDefined = false then st else { st with state := some s }

/-- `TokenStorage.getAndRemoveState`: reads the stored state and removes
the key, returning the value read and the updated storage. -/
def getAndRemoveState (st : StorageState) : Option String × StorageState :=
  if st.windowDefined = false then (none, st)
  else (st.state, { st with state := none })

/-- `TokenStorage.setUserInfo`; the JSON-serialized value is modelled as
the stored string. -/
def setUserInfo (st : StorageState) (userInfo : String) : StorageState :=
  if st.windowDefined = false then st else { st with userInfo := some userInfo }

/-- `TokenStorage.getUserInfo`; values written by `setUserInfo` round-trip
through JSON, so the parse step is modelled as reading the stored string. -/
def getUserInfo (st : StorageState) : Option String :=
  if st.windowDefined = false then none else st.userInfo

/-- `TokenStorage.clearAll`: removes every durable key and both
sessionStorage keys. -/
def clearAll (st : StorageState) : StorageState :=
  if st.windowDefined = false then st
  else
    { st with
      accessToken := none, refreshToken := none, idToken := none,
      tokenExpiry := none, userInfo := none, codeVerifier := none, state := none }

/-- `TokenStorage.isAuthenticated`: a truthy access token that is not
expired. -/
def isAuthenticated (st : StorageState) (now : Int) : Bool :=
  if st.windowDefined = false then false
  else jsTruthy (getAccessToken st) && ! isTokenExpired st now

/-! ## oauth.ts: PKCE generation and the protocol client -/

/-- `generateCodeVerifier`: base64url-encodes the 32 random bytes obtained
from `crypto.getRandomValues(new Uint8Array(32))`; the CSPRNG output is
the explicit `randomBytes` argument. -/
def generateCodeVerifier (randomBytes : List Nat) : String :=
  base64URLEncode randomBytes

/-- `generateCodeChallenge`: base64url-encodes the SHA-256 digest of the
UTF-8 bytes of the verifier. -/
def generateCodeChallenge (codeVerifier : String) : String :=
  base64URLEncode (sha256 (utf8Bytes codeVerifier))

/-- `generateState`: base64url-encodes 16 random bytes. -/
def generateState (randomBytes : List Nat) : String :=
  base64URLEncode randomBytes

/-- Hex digit for percent-encoding. -/
def hexDigit (n : Nat) : Char := "0123456789ABCDEF".data.getD n '0'

/-- Percent-encoding of one byte. -/
def percentByte (b : Nat) : String := String.mk ['%', hexDigit (b / 16), hexDigit (b % 16)]

/-- `application/x-www-form-urlencoded` encoding of one character, as
`URLSearchParams` serializes it: alphanumerics and `* - . _` are kept,
space becomes `+`, everything else is percent-encoded per UTF-8 byte. -/
def formEncodeChar (c : Char) : String :=
  if c.isAlphanum || c = '*' || c = '-' || c = '.' || c = '_' then String.singleton c
  else if c = ' ' then "+"
  else String.join ((utf8Bytes (String.singleton c)).map percentByte)

/-- `application/x-www-form-urlencoded` encoding of a string. -/
def formEncode (s : String) : String := String.join (s.data.map formEncodeChar)

/-- `URLSearchParams.toString()`: ampersand-separated `key=value` pairs,
both sides form-encoded. -/
def serializeParams (ps : List (String × String)) : String :=
  String.intercalate "&" (ps.map fun p => formEncode p.1 ++ "=" ++ formEncode p.2)

/-- The query parameters that `getAuthorizationUrl` puts into its
`URLSearchParams`, in source order. -/
def authQueryParams (clientId redirectUri : String) (scopes : List String)
    (verifierBytes stateBytes : List Nat) : List (String × String) :=
  [("client_id", clientId),
   ("redirect_uri", redirectUri),
   ("response_type", "code"),
   ("scope", String.intercalate " " scopes),
   ("code_challenge", generateCodeChallenge (generateCodeVerifier verifierBytes)),
   ("code_challenge_method", "S256"),
   ("state", generateState stateBytes)]

/-- Result record of `getAuthorizationUrl`. -/
structure AuthUrlResult where
  url : String
  codeVerifier : String
  state : String
deriving Repr, DecidableEq

/-- `getAuthorizationUrl`: builds the authorization URL from the query
parameters and returns it with the generated verifier and state. The
default `scopes` argument in the source is `["all", "openid"]`, joined
with a space. Pure: no network call is modelled because the source makes
none. -/
def getAuthorizationUrl (frappeServerUrl clientId redirectUri : String)
    (scopes : List String) (verifierBytes stateBytes : List Nat) : AuthUrlResult :=
  { url := frappeServerUrl ++ "/api/method/frappe.integrations.oauth2.authorize?" ++
      serializeParams (authQueryParams clientId redirectUri scopes verifierBytes stateBytes)
    codeVerifier := generateCodeVerifier verifierBytes
    state := generateState stateBytes }

/-- Parsed JSON error body of a failed token-endpoint response. -/
structure TokenErrorBody where
  error : Option String
  error_description : Option String
deriving Repr, DecidableEq

/-- The token response shape returned by the provider on success. -/
structure TokenResponse where
  access_token : String
  token_type : String
  expires_in : Int
  refresh_token : Option String
  id_token : Option String
  scope : String
deriving Repr, DecidableEq

/-- An HTTP response from the token endpoint: status code plus its JSON
body under both readings the source performs (error body on failure,
token response on success). -/
structure FetchResponse where
  status : Nat
  errorJson : TokenErrorBody
  tokenJson : TokenResponse
deriving Repr, DecidableEq

/-- The `response.ok` property of `fetch`: status in the range 200-299. -/
def respOk (status : Nat) : Bool := 200 ≤ status && status < 300

/-- The form body built by `exchangeCodeForToken`; `client_secret` is
appended only when the secret is a non-empty string. -/
def exchangeBody (clientId clientSecret code codeVerifier redirectUri : String) :
    List (String × String) :=
  [("grant_type", "authorization_code"),
   ("code", code),
   ("redirect_uri", redirectUri),
   ("client_id", clientId),
   ("code_verifier", codeVerifier)] ++
  (if clientSecret != "" then [("client_secret", clientSecret)] else [])

/-- `exchangeCodeForToken`, applied to the response the token endpoint
returned: on a non-ok response it throws
`error.error_description || error.error || "Token exchange failed"`,
otherwise it returns the parsed token response unchanged. -/
def exchangeCodeForToken (resp : FetchResponse) : Except String TokenResponse :=
  if respOk resp.status then Except.ok resp.tokenJson
  else Except.error (jsOr resp.errorJson.error_description
    (jsOr resp.errorJson.error "Token exchange failed"))

/-- The form body built by `refreshAccessToken`. -/
def refreshBody (clientId clientSecret refreshToken : String) : List (String × String) :=
  [("grant_type", "refresh_token"),
   ("refresh_token", refreshToken),
   ("client_id", clientId)] ++
  (if clientSecret != "" then [("client_secret", clientSecret)] else [])

/-- `refreshAccessToken`, applied to the response of the token endpoint. -/
def refreshAccessToken (resp : FetchResponse) : Except String TokenResponse :=
  if respOk resp.status then Except.ok resp.tokenJson
  else Except.error (jsOr resp.errorJson.error_description
    (jsOr resp.errorJson.error "Token refresh failed"))

/-- The headers built by `revokeToken`: always the form content type, plus
an HTTP Basic Authorization header from `btoa(clientId + ":" + secret)`
when a truthy client secret is supplied. -/
def revokeHeaders (clientId : String) (clientSecret : Option String) :
    List (String × String) :=
  [("Content-Type", "application/x-www-form-urlencoded")] ++
  (match clientSecret with
   | some s => if s != "" then [("Authorization", "Basic " ++ btoa (strBytes (clientId ++ ":" ++ s)))] else []
   | none => [])

/-- `revokeToken`, applied to the response status: the source inspects
`response.ok`/`response.status` only to emit a console warning and has no
throwing path, so the embedding always returns normally; the boolean
records whether the warning was logged. -/
def revokeToken (status : Nat) : Except String Bool :=
  Except.ok (! respOk status && status != 200)

/-! ## Theorems settling the claims -/

/-- C1: the PKCE attempt is single-use. `getAndRemoveCodeVerifier` returns
the stored verifier and deletes it, so a second take returns empty, and
every take from a storage without a stored verifier returns empty and
keeps it empty, until a new value is stashed by `setCodeVerifier`; the
same holds for `getAndRemoveState`/`setState`. -/
theorem pkce_attempt_single_use (st : StorageState) (h : st.windowDefined = true) :
    (getAndRemoveCodeVerifier st).1 = st.codeVerifier ∧
    ((getAndRemoveCodeVerifier st).2).codeVerifier = none ∧
    (getAndRemoveCodeVerifier ((getAndRemoveCodeVerifier st).2)).1 = none ∧
    (∀ st2 : StorageState, st2.codeVerifier = none →
      (getAndRemoveCodeVerifier st2).1 = none ∧
      ((getAndRemoveCodeVerifier st2).2).codeVerifier = none) ∧
    (∀ v, (getAndRemoveCodeVerifier (setCodeVerifier st v)).1 = some v) ∧
    (getAndRemoveState st).1 = st.state ∧
    ((getAndRemoveState st).2).state = none ∧
    (getAndRemoveState ((getAndRemoveState st).2)).1 = none ∧
    (∀ st2 : StorageState, st2.state = none →
      (getAndRemoveState st2).1 = none ∧
      ((getAndRemoveState st2).2).state = none) ∧
    (∀ s, (getAndRemoveState (setState st s)).1 = some s) := by
  refine ⟨by simp [getAndRemoveCodeVerifier, h],
          by simp [getAndRemoveCodeVerifier, h],
          by simp [getAndRemoveCodeVerifier, h],
          ?_,
          by intro v; simp [getAndRemoveCodeVerifier, setCodeVerifier, h],
          by simp [getAndRemoveState, h],
          by simp [getAndRemoveState, h],
          by simp [getAndRemoveState, h],
          ?_,
          by intro s; simp [getAndRemoveState, setState, h]⟩
  · intro st2 h2
    unfold getAndRemoveCodeVerifier
    split <;> simp_all
  · intro st2 h2
    unfold getAndRemoveState
    split <;> simp_all

/-- Witness for C1 at a concrete storage state holding a verifier and a
state value. -/
theorem pkce_attempt_single_use_witness :
    (getAndRemoveCodeVerifier
      ⟨true, none, none, none, none, none, some "ver", some "csrf"⟩).1 = some "ver" ∧
    (getAndRemoveCodeVerifier
      ((getAndRemoveCodeVerifier
        ⟨true, none, none, none, none, none, some "ver", some "csrf"⟩).2)).1 = none := by
  have h := pkce_attempt_single_use
    ⟨true, none, none, none, none, none, some "ver", some "csrf"⟩ rfl
  exact ⟨h.1, h.2.2.1⟩

/-- C2: with a stored expiry `e`, `isTokenExpired` at time `now` returns
true exactly when `now ≥ e - 60000`; at the boundary `now = e - 60000` it
returns true, strictly before it returns false, and with no stored expiry
it returns true. -/
theorem isTokenExpired_grace (st : StorageState) (now : Int) (h : st.windowDefined = true) :
    (∀ e : Int, st.tokenExpiry = some e →
      ((isTokenExpired st now = true ↔ now ≥ e - 60000) ∧
       isTokenExpired st (e - 60000) = true ∧
       (now < e - 60000 → isTokenExpired st now = false))) ∧
    (st.tokenExpiry = none → isTokenExpired st now = true) := by
  refine ⟨fun e he => ⟨?_, ?_, fun hlt => ?_⟩, fun he => ?_⟩
  · simp [isTokenExpired, h, he]
  · simp [isTokenExpired, h, he]
  · simp [isTokenExpired, h, he]; omega
  · simp [isTokenExpired, h, he]

/-- Witness for C2 at expiry 100000: the boundary time 40000 is expired,
one millisecond earlier is not. -/
theorem isTokenExpired_grace_witness :
    isTokenExpired ⟨true, none, none, none, some 100000, none, none, none⟩
      ((100000 : Int) - 60000) = true ∧
    isTokenExpired ⟨true, none, none, none, some 100000, none, none, none⟩
      39999 = false := by
  refine ⟨((isTokenExpired_grace
      ⟨true, none, none, none, some 100000, none, none, none⟩ 0 rfl).1 100000 rfl).2.1,
    ((isTokenExpired_grace
      ⟨true, none, none, none, some 100000, none, none, none⟩ 39999 rfl).1 100000 rfl).2.2
      (by decide)⟩

/-- C3: `setTokens` stores the absolute wall-clock expiry
`now + expiresIn * 1000` computed at the moment of storage. -/
theorem setTokens_absolute_expiry (st : StorageState) (now : Int) (a : String)
    (rt it : Option String) (ei : Int) (h : st.windowDefined = true) :
    (setTokens st now a rt it ei).tokenExpiry = some (now + ei * 1000) := by
  simp [setTokens, h]

/-- Witness for C3: saving at time 5000 with a 3600-second lifetime stores
the absolute timestamp 5000 + 3600 * 1000. -/
theorem setTokens_absolute_expiry_witness :
    (setTokens ⟨true, none, none, none, none, none, none, none⟩
      5000 "tok" none none 3600).tokenExpiry = some ((5000 : Int) + 3600 * 1000) :=
  setTokens_absolute_expiry ⟨true, none, none, none, none, none, none, none⟩
    5000 "tok" none none 3600 rfl

/-- C9: when the storage backend is unavailable (the `window` guard
fails), every read returns empty, `isTokenExpired` is true,
`isAuthenticated` is false, and every write returns the storage unchanged;
all operations are total functions, so none throws into the caller. -/
theorem storage_unavailable_degrades (st : StorageState) (now : Int)
    (a v s u : String) (rt it : Option String) (ei : Int)
    (h : st.windowDefined = false) :
    getAccessToken st = none ∧
    getRefreshToken st = none ∧
    getIdToken st = none ∧
    getUserInfo st = none ∧
    getAndRemoveCodeVerifier st = (none, st) ∧
    getAndRemoveState st = (none, st) ∧
    isTokenExpired st now = true ∧
    isAuthenticated st now = false ∧
    setTokens st now a rt it ei = st ∧
    setCodeVerifier st v = st ∧
    setState st s = st ∧
    setUserInfo st u = st ∧
    clearAll st = st := by
  simp [getAccessToken, getRefreshToken, getIdToken, getUserInfo,
        getAndRemoveCodeVerifier, getAndRemoveState, isTokenExpired,
        isAuthenticated, setTokens, setCodeVerifier, setState, setUserInfo,
        clearAll, h]

/-- Witness for C9 at a concrete unavailable-backend state that still has
values stored under every key. -/
theorem storage_unavailable_degrades_witness :
    getAccessToken ⟨false, some "at", some "rt", some "id", some 99, some "ui",
      some "cv", some "cs"⟩ = none ∧
    isAuthenticated ⟨false, some "at", some "rt", some "id", some 99, some "ui",
      some "cv", some "cs"⟩ 0 = false := by
  have h := storage_unavailable_degrades
    ⟨false, some "at", some "rt", some "id", some 99, some "ui", some "cv", some "cs"⟩
    0 "a" "v" "s" "u" none none 0 rfl
  exact ⟨h.1, h.2.2.2.2.2.2.2.1⟩

/-- C10: `setTokens` overwrites the refresh-token and id-token keys
exactly when the new values are truthy (present and non-empty); with an
absent or empty value the previously stored token survives the save. -/
theorem setTokens_preserves_stale_tokens (st : StorageState) (now : Int)
    (a : String) (rt it : Option String) (ei : Int)
    (h : st.windowDefined = true) :
    (jsTruthy rt = false → (setTokens st now a rt it ei).refreshToken = st.refreshToken) ∧
    (jsTruthy it = false → (setTokens st now a rt it ei).idToken = st.idToken) ∧
    (jsTruthy rt = true → (setTokens st now a rt it ei).refreshToken = rt) ∧
    (jsTruthy it = true → (setTokens st now a rt it ei).idToken = it) := by
  refine ⟨fun hrt => ?_, fun hit => ?_, fun hrt => ?_, fun hit => ?_⟩ <;>
    simp [setTokens, h, *]

/-- Witness for C10: a save with absent refresh and id tokens leaves the
previously stored values in place. -/
theorem setTokens_preserves_stale_tokens_witness :
    (setTokens ⟨true, none, some "oldRefresh", some "oldId", none, none, none, none⟩
      0 "newAccess" none none 3600).refreshToken = some "oldRefresh" ∧
    (setTokens ⟨true, none, some "oldRefresh", some "oldId", none, none, none, none⟩
      0 "newAccess" none none 3600).idToken = some "oldId" := by
  have h := setTokens_preserves_stale_tokens
    ⟨true, none, some "oldRefresh", some "oldId", none, none, none, none⟩
    0 "newAccess" none none 3600 rfl
  exact ⟨h.1 rfl, h.2.1 rfl⟩

/-- C4: `exchangeCodeForToken` fails exactly on a non-2xx response; the
error carries the provider error_description when present (non-empty,
i.e. truthy), otherwise the provider error; a 2xx response returns the raw
token response unchanged; and the request body contains `client_secret`
exactly when the supplied secret is non-empty. -/
theorem exchangeCodeForToken_spec (resp : FetchResponse)
    (clientId clientSecret code codeVerifier redirectUri : String) :
    ((∃ m, exchangeCodeForToken resp = Except.error m) ↔ respOk resp.status = false) ∧
    (respOk resp.status = true → exchangeCodeForToken resp = Except.ok resp.tokenJson) ∧
    (∀ d, respOk resp.status = false → resp.errorJson.error_description = some d →
      d ≠ "" → exchangeCodeForToken resp = Except.error d) ∧
    (∀ e, respOk resp.status = false → resp.errorJson.error_description = none →
      resp.errorJson.error = some e → e ≠ "" →
      exchangeCodeForToken resp = Except.error e) ∧
    ((exchangeBody clientId clientSecret code codeVerifier redirectUri).lookup
       "client_secret" = if clientSecret = "" then none else some clientSecret) := by
  refine ⟨?_, fun hok => ?_, fun d hok hd hne => ?_, fun e hok hd he hne => ?_, ?_⟩
  · unfold exchangeCodeForToken
    split <;> simp_all
  · simp [exchangeCodeForToken, hok]
  · simp [exchangeCodeForToken, hok, jsOr, hd, hne]
  · simp [exchangeCodeForToken, hok, jsOr, hd, he, hne]
  · by_cases hcs : clientSecret = "" <;> simp [exchangeBody, List.lookup, hcs]

/-- Witness for C4: a concrete 400 response whose error body carries a
description fails with exactly that description. -/
theorem exchangeCodeForToken_spec_witness :
    exchangeCodeForToken
      ⟨400, ⟨some "invalid_grant", some "bad code"⟩, ⟨"", "", 0, none, none, ""⟩⟩ =
      Except.error "bad code" :=
  (exchangeCodeForToken_spec
      ⟨400, ⟨some "invalid_grant", some "bad code"⟩, ⟨"", "", 0, none, none, ""⟩⟩
      "cid" "sec" "code" "cv" "uri").2.2.1 "bad code" rfl rfl (by decide)

/-- C5: `revokeToken` returns normally on every response status (its only
status inspection feeds a console warning, never a throw), and the request
headers carry an HTTP Basic Authorization built from
`btoa(clientId + ":" + clientSecret)` exactly when a truthy client secret
is configured. -/
theorem revokeToken_best_effort (status : Nat) (clientId : String)
    (clientSecret : Option String) :
    (∃ b, revokeToken status = Except.ok b) ∧
    ((revokeHeaders clientId clientSecret).lookup "Authorization" =
      if jsTruthy clientSecret then
        some ("Basic " ++ btoa (strBytes (clientId ++ ":" ++ clientSecret.getD "")))
      else none) ∧
    ((revokeHeaders clientId clientSecret).lookup "Content-Type" =
      some "application/x-www-form-urlencoded") := by
  refine ⟨⟨_, rfl⟩, ?_, ?_⟩
  · cases clientSecret with
    | none => simp [revokeHeaders, jsTruthy, List.lookup]
    | some s =>
        by_cases hs : s = "" <;> simp [revokeHeaders, jsTruthy, List.lookup, hs]
  · cases clientSecret with
    | none => simp [revokeHeaders, List.lookup]
    | some s =>
        by_cases hs : s = "" <;> simp [revokeHeaders, List.lookup, hs]

/-- C6: the authorization URL query contains exactly the parameters
client_id, redirect_uri, response_type=code, scope, code_challenge,
code_challenge_method=S256 and state; the scope value is the joined scope
list, whose source default `["all", "openid"]` joins to "all openid"; the
serialized state and code verifier are the ones returned; and the function
is a pure composition of the generator and the serializer (no network
effect exists in the embedding). -/
theorem getAuthorizationUrl_spec (serverUrl clientId redirectUri : String)
    (scopes : List String) (vb sb : List Nat) :
    (authQueryParams clientId redirectUri scopes vb sb).map Prod.fst =
      ["client_id", "redirect_uri", "response_type", "scope",
       "code_challenge", "code_challenge_method", "state"] ∧
    (authQueryParams clientId redirectUri scopes vb sb).lookup "client_id" =
      some clientId ∧
    (authQueryParams clientId redirectUri scopes vb sb).lookup "redirect_uri" =
      some redirectUri ∧
    (authQueryParams clientId redirectUri scopes vb sb).lookup "response_type" =
      some "code" ∧
    (authQueryParams clientId redirectUri scopes vb sb).lookup "scope" =
      some (String.intercalate " " scopes) ∧
    (authQueryParams clientId redirectUri scopes vb sb).lookup "code_challenge" =
      some (generateCodeChallenge
        ((getAuthorizationUrl serverUrl clientId redirectUri scopes vb sb).codeVerifier)) ∧
    (authQueryParams clientId redirectUri scopes vb sb).lookup "code_challenge_method" =
      some "S256" ∧
    (authQueryParams clientId redirectUri scopes vb sb).lookup "state" =
      some ((getAuthorizationUrl serverUrl clientId redirectUri scopes vb sb).state) ∧
    (getAuthorizationUrl serverUrl clientId redirectUri scopes vb sb).codeVerifier =
      generateCodeVerifier vb ∧
    String.intercalate " " ["all", "openid"] = "all openid" ∧
    (getAuthorizationUrl serverUrl clientId redirectUri scopes vb sb).url =
      serverUrl ++ "/api/method/frappe.integrations.oauth2.authorize?" ++
        serializeParams (authQueryParams clientId redirectUri scopes vb sb) := by
  refine ⟨rfl, rfl, ?_, ?_, ?_, ?_, ?_, ?_, rfl, rfl, rfl⟩ <;>
    simp [authQueryParams, getAuthorizationUrl, List.lookup]

/-- The `+`/`/` replacement turns each standard-alphabet character into
the corresponding url-alphabet character. -/
theorem urlMap_b64Char (n : Nat) : urlMapChar (b64Char n) = b64UrlChar n := by
  by_cases h : n < 64
  · exact (by decide : ∀ m, m < 64 → urlMapChar (b64Char m) = b64UrlChar m) n h
  · have h1 : b64StdChars.length ≤ n := by
      have : b64StdChars.length = 64 := by decide
      omega
    have h2 : b64UrlChars.length ≤ n := by
      have : b64UrlChars.length = 64 := by decide
      omega
    unfold b64Char b64UrlChar
    rw [List.getD_eq_default _ _ h1, List.getD_eq_default _ _ h2]
    decide

/-- No url-alphabet character is the padding character. -/
theorem b64UrlChar_ne (n : Nat) : b64UrlChar n ≠ '=' := by
  by_cases h : n < 64
  · exact (by decide : ∀ m, m < 64 → b64UrlChar m ≠ '=') n h
  · have h2 : b64UrlChars.length ≤ n := by
      have : b64UrlChars.length = 64 := by decide
      omega
    unfold b64UrlChar
    rw [List.getD_eq_default _ _ h2]
    decide

/-- `dropWhile` is the identity on a list none of whose elements satisfy
the predicate at the head. -/
theorem dropWhileEq_no (l : List Char) (h : ∀ ch ∈ l, (ch == '=') = false) :
    l.dropWhile (· == '=') = l := by
  cases l with
  | nil => rfl
  | cons x xs =>
      rw [List.dropWhile_cons]
      simp [h x (List.mem_cons_self x xs)]

/-- `dropWhile` over an append. -/
theorem dropWhileEq_append (A B : List Char) :
    (A ++ B).dropWhile (· == '=') =
      if (A.dropWhile (· == '=')).isEmpty then B.dropWhile (· == '=')
      else A.dropWhile (· == '=') ++ B := by
  induction A with
  | nil => simp
  | cons x xs ih =>
      by_cases hx : (x == '=') = true
      · simp [List.dropWhile_cons, hx, ih]
      · simp [List.dropWhile_cons, hx]

/-- Stripping trailing `=` from `xs ++ ys` only strips inside `ys` when
`xs` contains no `=` at all. -/
theorem dropTrailingEq_append (xs ys : List Char)
    (h : ∀ ch ∈ xs, (ch == '=') = false) :
    dropTrailingEq (xs ++ ys) = xs ++ dropTrailingEq ys := by
  unfold dropTrailingEq
  rw [List.reverse_append, dropWhileEq_append]
  have hx : xs.reverse.dropWhile (· == '=') = xs.reverse :=
    dropWhileEq_no _ (fun ch hc => h ch (List.mem_reverse.mp hc))
  by_cases he : (ys.reverse.dropWhile (· == '=')).isEmpty
  · rw [if_pos he, hx, List.reverse_reverse]
    rw [List.isEmpty_iff.mp he]
    simp
  · rw [if_neg he, List.reverse_append, List.reverse_reverse]

/-- The source `base64URLEncode` pipeline (`btoa`, then character
replacement, then stripping trailing `=`) computes exactly the direct
unpadded base64url encoding. -/
theorem btoaUrl_eq_noPad (bytes : List Nat) :
    dropTrailingEq ((btoaChunks bytes).map urlMapChar) = base64urlNoPad bytes := by
  induction bytes using base64urlNoPad.induct with
  | case1 => rfl
  | case2 a =>
      show dropTrailingEq
          [urlMapChar (b64Char (a / 4)), urlMapChar (b64Char (a % 4 * 16)),
           urlMapChar '=', urlMapChar '='] = _
      simp only [urlMap_b64Char]
      have h0 : (b64UrlChar (a / 4) == '=') = false :=
        beq_eq_false_iff_ne.mpr (b64UrlChar_ne _)
      have h1 : (b64UrlChar (a % 4 * 16) == '=') = false :=
        beq_eq_false_iff_ne.mpr (b64UrlChar_ne _)
      simp [dropTrailingEq, List.dropWhile, urlMapChar, h0, h1, base64urlNoPad]
  | case3 a b =>
      show dropTrailingEq
          [urlMapChar (b64Char (a / 4)), urlMapChar (b64Char (a % 4 * 16 + b / 16)),
           urlMapChar (b64Char (b % 16 * 4)), urlMapChar '='] = _
      simp only [urlMap_b64Char]
      have h0 : (b64UrlChar (a / 4) == '=') = false :=
        beq_eq_false_iff_ne.mpr (b64UrlChar_ne _)
      have h1 : (b64UrlChar (a % 4 * 16 + b / 16) == '=') = false :=
        beq_eq_false_iff_ne.mpr (b64UrlChar_ne _)
      have h2 : (b64UrlChar (b % 16 * 4) == '=') = false :=
        beq_eq_false_iff_ne.mpr (b64UrlChar_ne _)
      simp [dropTrailingEq, List.dropWhile, urlMapChar, h0, h1, h2, base64urlNoPad]
  | case4 a b c rest ih =>
      show dropTrailingEq
          ([urlMapChar (b64Char (a / 4)), urlMapChar (b64Char (a % 4 * 16 + b / 16)),
            urlMapChar (b64Char (b % 16 * 4 + c / 64)), urlMapChar (b64Char (c % 64))] ++
           (btoaChunks rest).map urlMapChar) = _
      simp only [urlMap_b64Char]
      rw [dropTrailingEq_append _ _ ?hno, ih]
      case hno =>
        intro ch hc
        have hc4 : ch = b64UrlChar (a / 4) ∨ ch = b64UrlChar (a % 4 * 16 + b / 16) ∨
            ch = b64UrlChar (b % 16 * 4 + c / 64) ∨ ch = b64UrlChar (c % 64) := by
          simpa using hc
        rcases hc4 with h | h | h | h <;> subst h <;>
          exact beq_eq_false_iff_ne.mpr (b64UrlChar_ne _)
      rfl

/-- The unpadded base64url encoding never contains `=`. -/
theorem mem_base64urlNoPad_ne (bytes : List Nat) :
    ∀ ch ∈ base64urlNoPad bytes, ch ≠ '=' := by
  induction bytes using base64urlNoPad.induct with
  | case1 => intro ch hc; simp [base64urlNoPad] at hc
  | case2 a =>
      intro ch hc
      have : ch = b64UrlChar (a / 4) ∨ ch = b64UrlChar (a % 4 * 16) := by
        simpa [base64urlNoPad] using hc
      rcases this with h | h <;> subst h <;> exact b64UrlChar_ne _
  | case3 a b =>
      intro ch hc
      have : ch = b64UrlChar (a / 4) ∨ ch = b64UrlChar (a % 4 * 16 + b / 16) ∨
          ch = b64UrlChar (b % 16 * 4) := by
        simpa [base64urlNoPad] using hc
      rcases this with h | h | h <;> subst h <;> exact b64UrlChar_ne _
  | case4 a b c rest ih =>
      intro ch hc
      have : ch = b64UrlChar (a / 4) ∨ ch = b64UrlChar (a % 4 * 16 + b / 16) ∨
          ch = b64UrlChar (b % 16 * 4 + c / 64) ∨ ch = b64UrlChar (c % 64) ∨
          ch ∈ base64urlNoPad rest := by
        simpa [base64urlNoPad] using hc
      rcases this with h | h | h | h | h
      · subst h; exact b64UrlChar_ne _
      · subst h; exact b64UrlChar_ne _
      · subst h; exact b64UrlChar_ne _
      · subst h; exact b64UrlChar_ne _
      · exact ih ch h

/-- Length of the unpadded base64url encoding. -/
theorem length_base64urlNoPad (bytes : List Nat) :
    (base64urlNoPad bytes).length =
      4 * (bytes.length / 3) +
        (if bytes.length % 3 = 0 then 0 else bytes.length % 3 + 1) := by
  induction bytes using base64urlNoPad.induct with
  | case1 => simp [base64urlNoPad]
  | case2 a => simp [base64urlNoPad]
  | case3 a b => simp [base64urlNoPad]
  | case4 a b c rest ih =>
      have hmod : (rest.length + 3) % 3 = rest.length % 3 := by omega
      have hdiv : (rest.length + 3) / 3 = rest.length / 3 + 1 := by omega
      simp only [base64urlNoPad, List.length_cons, ih, List.length_cons]
      by_cases h3 : rest.length % 3 = 0 <;>
        simp [hmod, hdiv, h3] <;> omega

/-- C7: `generateCodeChallenge` equals the unpadded base64url encoding of
the SHA-256 digest of the UTF-8 bytes of the verifier, and its output
contains no padding character; determinism is inherent, the embedding
being a pure function of the verifier. -/
theorem generateCodeChallenge_spec (v : String) :
    generateCodeChallenge v = String.mk (base64urlNoPad (sha256 (utf8Bytes v))) ∧
    ∀ ch ∈ (generateCodeChallenge v).data, ch ≠ '=' := by
  have heq : generateCodeChallenge v =
      String.mk (base64urlNoPad (sha256 (utf8Bytes v))) := by
    unfold generateCodeChallenge base64URLEncode
    rw [btoaUrl_eq_noPad]
  refine ⟨heq, ?_⟩
  intro ch hc
  rw [heq] at hc
  exact mem_base64urlNoPad_ne _ ch hc

/-- C8: on every 32-byte CSPRNG output, the code verifier produced by
`generateCodeVerifier` has length between 43 and 128 characters (it is in
fact exactly 43). -/
theorem generateCodeVerifier_length_spec (randomBytes : List Nat)
    (hlen : randomBytes.length = 32) (hbytes : ∀ b ∈ randomBytes, b < 256) :
    43 ≤ (generateCodeVerifier randomBytes).length ∧
    (generateCodeVerifier randomBytes).length ≤ 128 := by
  have hq : (generateCodeVerifier randomBytes).length = 43 := by
    unfold generateCodeVerifier base64URLEncode
    rw [btoaUrl_eq_noPad]
    show (base64urlNoPad randomBytes).length = 43
    rw [length_base64urlNoPad, hlen]
    decide
  omega

/-- Witness for C8 at the all-zero 32-byte CSPRNG output. -/
theorem generateCodeVerifier_length_spec_witness :
    43 ≤ (generateCodeVerifier (List.replicate 32 0)).length ∧
    (generateCodeVerifier (List.replicate 32 0)).length ≤ 128 :=
  generateCodeVerifier_length_spec (List.replicate 32 0) (by decide) (by decide)

end FrappeOAuth

